import Mathlib

/-!
Verification of the transport-dispatch and error-taxonomy layer of
outline-client-go, against its natural-language specification.

The error taxonomy is embedded from `outline/errors.go`: sentinel errors
created with `errors.New`, four wrapper error types (`ClientError`,
`ParseURLError`, `UnmarshalError`, `DoError`) each carrying a joined cause
built by `errors.Join`, the shared `withLastError` formatting helper, and
the behaviour of `errors.Is` / `errors.As` on these values.

The transport engine is embedded from `internal/http/fast_client.go`:
`(*Client).Do` acquires pooled fasthttp request/response objects, runs the
exchange in a helper goroutine, selects between helper completion and
context cancellation, clones the response body out of the pooled buffer on
success, and releases the pooled objects via `defer` on every exit path.
Pooled buffers are modelled by an explicit heap of byte buffers so that
aliasing and release ordering are observable.
-/

namespace Outline

/-- The thirteen sentinel error kinds of `outline/errors.go` (package-level
`errors.New` variables), as a closed enumeration.  Two sentinels are the
same Go error value iff they are the same variable, i.e. the same tag. -/
inductive Sentinel where
  | clientOutline
  | invalidBaseURL
  | unmarshalFailed
  | unmarshalEmptyBody
  | invalidHostname
  | internalHostName
  | invalidPort
  | portAlreadyInUse
  | invalidServerName
  | invalidRequest
  | invalidDataLimit
  | accessKeyNotFound
  | unexpectedStatusCode
  | doOperation
deriving DecidableEq, Repr

/-- Message strings of the sentinel errors (the `...ErrStr` constants). -/
def sentinelStr : Sentinel → String
  | .clientOutline => "outline client error"
  | .invalidBaseURL => "invalid baseURL"
  | .unmarshalFailed => "unmarshal failed"
  | .unmarshalEmptyBody => "empty body"
  | .invalidHostname => "invalid hostname or IP address"
  | .internalHostName => "internal error occurred while validating hostname or IP address"
  | .invalidPort => "requested port wasn't integer from 1 through 65535, or request had no port parameter"
  | .portAlreadyInUse => "requested port was already in use by another service"
  | .invalidServerName => "invalid server name"
  | .invalidRequest => "invalid request"
  | .invalidDataLimit => "invalid data limit"
  | .accessKeyNotFound => "access key not found"
  | .unexpectedStatusCode => "unexpected status code"
  | .doOperation => "do operation error"

/-- Go error values as produced and consumed by this package.

* `sentinel` — one of the package-level sentinel errors;
* `external` — an arbitrary error from outside the package (e.g. a JSON
  decoding error, or a transport error); distinct `id`s model distinct
  allocations, `msg` is its `Error()` string;
* `joined` — the result of `errors.Join` on a non-empty list of non-nil
  errors (Go's `*joinError`, which exposes `Unwrap() []error`);
* four wrapper constructors mirroring the four structs of `errors.go`;
  their `err` field is `Option GoErr` because a Go `error` field may be
  `nil`.  Byte-slice fields (`data`) are modelled as the string their
  bytes spell, since they are only compared to empty and printed with
  `%s`. -/
inductive GoErr where
  | sentinel (tag : Sentinel)
  | external (id : Nat) (msg : String)
  | joined (errs : List GoErr)
  | clientError (statusCode : Int) (data : String) (message : String) (err : Option GoErr)
  | parseURLError (baseURL : String) (message : String) (err : Option GoErr)
  | unmarshalError (data : String) (typeStr : String) (message : String) (err : Option GoErr)
  | doError (operation : String) (message : String) (err : Option GoErr)

/-- `errors.Join`: drop the `nil` arguments; if none remain the result is
`nil`, otherwise a `*joinError` holding the non-nil errors in order. -/
def errorsJoin (errs : List (Option GoErr)) : Option GoErr :=
  match errs.filterMap id with
  | [] => none
  | l => some (.joined l)

/-- Go `==` on error interface values, restricted to the values appearing
here: sentinel variables are equal iff they are the same variable;
`external` errors are equal iff they are the same allocation; `joined` and
wrapper values are fresh pointer allocations, never `==` to a sentinel or
to each other unless identical — kind-matching below only ever compares
against sentinels and externals, for which this is exact. -/
def errEq : GoErr → GoErr → Bool
  | .sentinel a, .sentinel b => a == b
  | .external i _, .external j _ => i == j
  | _, _ => false

mutual

/-- `errors.Is(err, target)`: direct `==` comparison, then recursion
through `Unwrap() error` (the four wrapper types) or `Unwrap() []error`
(joined errors).  None of the types define an `Is` method. -/
def goIs (err target : GoErr) : Bool :=
  errEq err target || goIsUnwrap err target
termination_by (sizeOf err, 1)

/-- The unwrap step of `errors.Is`: a wrapper with a `nil` `err` field
stops the search (Go: `Unwrap()` returned `nil`). -/
def goIsUnwrap : GoErr → GoErr → Bool
  | .joined errs, target => goIsList errs target
  | .clientError _ _ _ (some u), target => goIs u target
  | .parseURLError _ _ (some u), target => goIs u target
  | .unmarshalError _ _ _ (some u), target => goIs u target
  | .doError _ _ (some u), target => goIs u target
  | _, _ => false
termination_by e _ => (sizeOf e, 0)

/-- `errors.Is` over the elements of a multi-error, in order. -/
def goIsList : List GoErr → GoErr → Bool
  | [], _ => false
  | e :: rest, target => goIs e target || goIsList rest target
termination_by l _ => (sizeOf l, 2)

end

/-- The four concrete wrapper types of the taxonomy, as `errors.As`
target types. -/
inductive WrapperType where
  | client
  | parseURL
  | unmarshal
  | doErr
deriving DecidableEq, Repr

/-- Whether a Go error value's dynamic type is the given wrapper type. -/
def isType : WrapperType → GoErr → Bool
  | .client, .clientError .. => true
  | .parseURL, .parseURLError .. => true
  | .unmarshal, .unmarshalError .. => true
  | .doErr, .doError .. => true
  | _, _ => false

mutual

/-- `errors.As(err, target)` for a `target` of the given wrapper type:
returns the first error in the unwrap traversal whose dynamic type
matches, or `none` when the traversal is exhausted. -/
def goAs (t : WrapperType) (err : GoErr) : Option GoErr :=
  if isType t err then some err else goAsUnwrap t err
termination_by (sizeOf err, 1)

/-- The unwrap step of `errors.As`. -/
def goAsUnwrap : WrapperType → GoErr → Option GoErr
  | t, .joined errs => goAsList t errs
  | t, .clientError _ _ _ (some u) => goAs t u
  | t, .parseURLError _ _ (some u) => goAs t u
  | t, .unmarshalError _ _ _ (some u) => goAs t u
  | t, .doError _ _ (some u) => goAs t u
  | _, _ => none
termination_by _ e => (sizeOf e, 0)

/-- `errors.As` over the elements of a multi-error, in order. -/
def goAsList : WrapperType → List GoErr → Option GoErr
  | _, [] => none
  | t, e :: rest =>
    match goAs t e with
    | some r => some r
    | none => goAsList t rest
termination_by _ l => (sizeOf l, 2)

end

end Outline

namespace Outline

mutual

/-- `Error()` of a Go error value.  Sentinels return their message;
`*joinError` concatenates the `Error()` strings of its elements with a
newline; the four wrapper types implement the formatting methods of
`errors.go`, each ending in `withLastError`. -/
def goError : GoErr → String
  | .sentinel tag => sentinelStr tag
  | .external _ msg => msg
  | .joined errs => joinErrorString errs
  | .clientError statusCode data message err =>
    withLastError
      (let m := message ++ "; status code: " ++ toString statusCode
       if data.length > 0 then m ++ "; data: " ++ data else m) err
  | .parseURLError baseURL message err =>
    withLastError
      (if baseURL == "" then message ++ "; baseUrl is empty"
       else message ++ "; (base url: " ++ baseURL ++ ")") err
  | .unmarshalError data typeStr message err =>
    withLastError
      (let m := if typeStr != "" then message ++ "; (type: " ++ typeStr ++ ")" else message
       if data.length > 0 then m ++ "; data: " ++ data else m) err
  | .doError operation message err =>
    withLastError (message ++ "; operation: " ++ operation) err
termination_by e => (sizeOf e, 1)

/-- `withLastError(message, err)` of `errors.go`: if `err` implements
`Unwrap() []error` (here: exactly the `joined` values) and that list is
non-empty, append `"; reason: "` and the `Error()` string of its last
element; in every case terminate with a period. -/
def withLastError (message : String) (err : Option GoErr) : String :=
  match err with
  | some (.joined errs) => withLastList message errs
  | _ => message ++ "."
termination_by (sizeOf err, 0)

/-- The body of `withLastError` once the type assertion succeeded:
`lastErr` is the last element of the non-empty view (for the empty list no
reason clause is appended, as in the source where `lastErr` stays `nil`). -/
def withLastList (message : String) : List GoErr → String
  | [] => message ++ "."
  | [e] => message ++ "; reason: " ++ goError e ++ "."
  | _ :: rest => withLastList message rest
termination_by l => (sizeOf l, 0)

/-- `Error()` of Go's `*joinError`: the elements' messages joined by a
newline. -/
def joinErrorString : List GoErr → String
  | [] => ""
  | [e] => goError e
  | e :: rest => goError e ++ "\n" ++ joinErrorString rest
termination_by l => (sizeOf l, 2)

end

/-- `Unwrap()` of the four wrapper types (each returns its `err` field);
`none` for every other error value (no `Unwrap() error` method). -/
def unwrapField : GoErr → Option GoErr
  | .clientError _ _ _ err => err
  | .parseURLError _ _ err => err
  | .unmarshalError _ _ _ err => err
  | .doError _ _ err => err
  | _ => none

/-! ### The constructor functions of `errors.go` -/

/-- The `ClientOutlineError` sentinel. -/
def ClientOutlineError : GoErr := .sentinel .clientOutline

/-- `errInvalidHostname(statusCode, hostnameOrIP)`. -/
def errInvalidHostname (statusCode : Int) (hostnameOrIP : String) : GoErr :=
  .clientError statusCode ""
    (sentinelStr .clientOutline ++ ": (host name or ip: " ++ hostnameOrIP ++ ")")
    (errorsJoin [some (.sentinel .clientOutline), some (.sentinel .invalidHostname)])

/-- `errInternalHostname(statusCode, hostnameOrIP)`. -/
def errInternalHostname (statusCode : Int) (hostnameOrIP : String) : GoErr :=
  .clientError statusCode ""
    (sentinelStr .clientOutline ++ ": (host name or ip: " ++ hostnameOrIP ++ ")")
    (errorsJoin [some (.sentinel .clientOutline), some (.sentinel .internalHostName)])

/-- `errInvalidPort(statusCode, port)` (`port` is a `uint16`). -/
def errInvalidPort (statusCode : Int) (port : Nat) : GoErr :=
  .clientError statusCode ""
    (sentinelStr .clientOutline ++ ": (port: " ++ toString port ++ ")")
    (errorsJoin [some (.sentinel .clientOutline), some (.sentinel .invalidPort)])

/-- `errPortAlreadyInUse(statusCode, port)`. -/
def errPortAlreadyInUse (statusCode : Int) (port : Nat) : GoErr :=
  .clientError statusCode ""
    (sentinelStr .clientOutline ++ ": (port: " ++ toString port ++ ")")
    (errorsJoin [some (.sentinel .clientOutline), some (.sentinel .portAlreadyInUse)])

/-- `errInvalidServerName(statusCode, name)`. -/
def errInvalidServerName (statusCode : Int) (name : String) : GoErr :=
  .clientError statusCode ""
    (sentinelStr .clientOutline ++ ": (server name: " ++ name ++ ")")
    (errorsJoin [some (.sentinel .clientOutline), some (.sentinel .invalidServerName)])

/-- `errInvalidRequest(statusCode, body)`. -/
def errInvalidRequest (statusCode : Int) (body : String) : GoErr :=
  .clientError statusCode ""
    (sentinelStr .clientOutline ++ ": (response body: " ++ body ++ ")")
    (errorsJoin [some (.sentinel .clientOutline), some (.sentinel .invalidRequest)])

/-- `errInvalidDataLimit(statusCode, bytes)` (`bytes` is a `uint64`). -/
def errInvalidDataLimit (statusCode : Int) (bytes : Nat) : GoErr :=
  .clientError statusCode ""
    (sentinelStr .clientOutline ++ ": (data limit bytes: " ++ toString bytes ++ ")")
    (errorsJoin [some (.sentinel .clientOutline), some (.sentinel .invalidDataLimit)])

/-- `errAccessKeyNotFound(statusCode, accessKeyID)`. -/
def errAccessKeyNotFound (statusCode : Int) (accessKeyID : String) : GoErr :=
  .clientError statusCode ""
    (sentinelStr .clientOutline ++ ": (access key id: " ++ accessKeyID ++ ")")
    (errorsJoin [some (.sentinel .clientOutline), some (.sentinel .accessKeyNotFound)])

/-- `errUnexpectedStatusCode(statusCode, data)`. -/
def errUnexpectedStatusCode (statusCode : Int) (data : String) : GoErr :=
  .clientError statusCode data
    (sentinelStr .clientOutline ++ ": " ++ sentinelStr .unexpectedStatusCode)
    (errorsJoin [some (.sentinel .clientOutline), some (.sentinel .unexpectedStatusCode)])

/-- `errParseBaseURL(baseURL, err)`. -/
def errParseBaseURL (baseURL : String) (err : Option GoErr) : GoErr :=
  .parseURLError baseURL
    (sentinelStr .clientOutline ++ ": " ++ sentinelStr .invalidBaseURL)
    (errorsJoin [some (.sentinel .clientOutline), some (.sentinel .invalidBaseURL), err])

/-- `errUnmarshal(data, typeStr, err)`. -/
def errUnmarshal (data : String) (typeStr : String) (err : Option GoErr) : GoErr :=
  .unmarshalError data typeStr
    (sentinelStr .clientOutline ++ ": " ++ sentinelStr .unmarshalFailed)
    (errorsJoin [some (.sentinel .clientOutline), some (.sentinel .unmarshalFailed), err])

/-- `errUnmarshalEmptyBody(typeStr)` (its `data` field is `[]byte{}`). -/
def errUnmarshalEmptyBody (typeStr : String) : GoErr :=
  .unmarshalError "" typeStr
    (sentinelStr .clientOutline ++ ": " ++ sentinelStr .unmarshalFailed)
    (errorsJoin [some (.sentinel .clientOutline), some (.sentinel .unmarshalFailed),
      some (.sentinel .unmarshalEmptyBody)])

/-- The shared shape of the eighteen `DoError` constructors: each fixes
its operation name and joins the umbrella kind, `DoOperationError` and
the upstream error. -/
def mkDoError (operation : String) (err : Option GoErr) : GoErr :=
  .doError operation
    (sentinelStr .clientOutline ++ ": " ++ sentinelStr .doOperation)
    (errorsJoin [some (.sentinel .clientOutline), some (.sentinel .doOperation), err])

/-- `errDoGetServerInfo(err)`. -/
def errDoGetServerInfo (err : Option GoErr) : GoErr := mkDoError "get server info" err

/-- `errDoUpdateServerHostname(err)`. -/
def errDoUpdateServerHostname (err : Option GoErr) : GoErr := mkDoError "update server hostname" err

/-- `errDoUpdatePortNewAccessKeys(err)`. -/
def errDoUpdatePortNewAccessKeys (err : Option GoErr) : GoErr := mkDoError "update port for new access keys" err

/-- `errDoUpdateServerName(err)`. -/
def errDoUpdateServerName (err : Option GoErr) : GoErr := mkDoError "update server name" err

/-- `errDoGetMetricsEnabled(err)`. -/
def errDoGetMetricsEnabled (err : Option GoErr) : GoErr := mkDoError "get metrics enabled" err

/-- `errDoUpdateMetricsEnabled(err)`. -/
def errDoUpdateMetricsEnabled (err : Option GoErr) : GoErr := mkDoError "update metrics enabled" err

/-- `errDoUpdateKeyLimitBytes(err)`. -/
def errDoUpdateKeyLimitBytes (err : Option GoErr) : GoErr := mkDoError "update key limit bytes" err

/-- `errDoDeleteKeyLimitBytes(err)`. -/
def errDoDeleteKeyLimitBytes (err : Option GoErr) : GoErr := mkDoError "delete key limit bytes" err

/-- `errDoCreateAccessKey(err)`. -/
def errDoCreateAccessKey (err : Option GoErr) : GoErr := mkDoError "create access key" err

/-- `errDoGetAccessKeys(err)`. -/
def errDoGetAccessKeys (err : Option GoErr) : GoErr := mkDoError "get access keys" err

/-- `errDoGetAccessKey(err)`. -/
def errDoGetAccessKey (err : Option GoErr) : GoErr := mkDoError "get access key" err

/-- `errDoUpdateAccessKey(err)`. -/
def errDoUpdateAccessKey (err : Option GoErr) : GoErr := mkDoError "update access key" err

/-- `errDoDeleteAccessKey(err)`. -/
def errDoDeleteAccessKey (err : Option GoErr) : GoErr := mkDoError "delete access key" err

/-- `errDoUpdateNameAccessKey(err)`. -/
def errDoUpdateNameAccessKey (err : Option GoErr) : GoErr := mkDoError "update name access key" err

/-- `errDoUpdateDataLimitAccessKey(err)`. -/
def errDoUpdateDataLimitAccessKey (err : Option GoErr) : GoErr := mkDoError "update data limit access key" err

/-- `errDoDeleteDataLimitAccessKey(err)`. -/
def errDoDeleteDataLimitAccessKey (err : Option GoErr) : GoErr := mkDoError "delete data limit access key" err

/-- `errDoGetMetricsTransfer(err)`. -/
def errDoGetMetricsTransfer (err : Option GoErr) : GoErr := mkDoError "get metrics transfer" err

/-- `errDoGetExperimentalMetrics(err)`. -/
def errDoGetExperimentalMetrics (err : Option GoErr) : GoErr := mkDoError "get experimental metrics" err

end Outline

namespace Outline

/-! ### Transport engine (`internal/http/fast_client.go`)

`(*Client).Do` acquires a pooled `fasthttp.Request` and `fasthttp.Response`
(`AcquireRequest` / `AcquireResponse`), defers their release, populates the
request object, runs `c.client.Do(fastReq, fastResp)` in a helper goroutine
that reports on a one-slot channel, and `select`s between that channel and
`ctx.Done()`.  On completion it copies the headers out, clones the body
bytes (`slices.Clone`) out of the pooled response, and returns a fresh
`contracts.Response`.

Pooled objects and byte buffers are modelled explicitly: `TState.heap` is
the set of byte buffers ever allocated (each pooled response object owns
one, holding its body; `slices.Clone` allocates a fresh one), and the free
lists model the two `sync.Pool`s.  A `contracts.Response` body (a Go byte
slice) is a reference into the heap, so aliasing between the returned body
and pooled memory is observable.  The order of the resource events of one
call is recorded in a trace. -/

/-- `contracts.Request`: method, URL, headers, optional body bytes. -/
structure Request where
  method : String
  url : String
  headers : List (String × String)
  body : Option (List Nat)

/-- A pooled `fasthttp.Request` object. -/
structure FastRequestObj where
  uri : String
  method : String
  headers : List (String × String)
  body : Option (List Nat)

/-- A pooled `fasthttp.Response` object; `bodyBuf` is the heap id of the
byte buffer that holds its body and is reused across acquisitions. -/
structure FastResponseObj where
  statusCode : Int
  headers : List (String × String)
  bodyBuf : Nat

/-- What the underlying fasthttp engine wrote on a successful exchange:
status code, response headers, and the body bytes it stored into the
pooled response's buffer. -/
structure EngineResponse where
  statusCode : Int
  headers : List (String × String)
  body : List Nat

/-- The shared mutable state: the byte-buffer heap, every pooled object
ever created, and the two pool free lists. -/
structure TState where
  heap : List (List Nat)
  reqObjs : List FastRequestObj
  respObjs : List FastResponseObj
  reqFree : List Nat
  respFree : List Nat

/-- Reading a heap byte buffer (dereferencing a Go byte slice). -/
def readBuf (s : TState) (i : Nat) : List Nat :=
  s.heap.getD i []

/-- `fasthttp.AcquireRequest`: reuse a pooled object or create a fresh
one. -/
def acquireReq (s : TState) : TState × Nat :=
  match s.reqFree with
  | i :: rest => ({ s with reqFree := rest }, i)
  | [] => ({ s with reqObjs := s.reqObjs ++ [⟨"", "", [], none⟩] }, s.reqObjs.length)

/-- `fasthttp.AcquireResponse`: reuse a pooled object or create a fresh
one together with its body buffer. -/
def acquireResp (s : TState) : TState × Nat :=
  match s.respFree with
  | i :: rest => ({ s with respFree := rest }, i)
  | [] =>
    ({ s with heap := s.heap ++ [[]],
              respObjs := s.respObjs ++ [⟨0, [], s.heap.length⟩] }, s.respObjs.length)

/-- `fasthttp.ReleaseRequest`: return the object to the pool. -/
def releaseReq (s : TState) (i : Nat) : TState :=
  { s with reqFree := i :: s.reqFree }

/-- `fasthttp.ReleaseResponse`: return the object (with its body buffer)
to the pool. -/
def releaseResp (s : TState) (i : Nat) : TState :=
  { s with respFree := i :: s.respFree }

/-- Populating the pooled request object, in source order:
`SetRequestURI`, `Header.SetMethod`, the header loop, and `SetBody` only
when the caller supplied a body. -/
def populateRequest (s : TState) (i : Nat) (req : Request) : TState :=
  let o := s.reqObjs.getD i ⟨"", "", [], none⟩
  let o := { o with uri := req.url }
  let o := { o with method := req.method }
  let o := { o with headers := req.headers }
  let o := if req.body.isSome then { o with body := req.body } else o
  { s with reqObjs := s.reqObjs.set i o }

/-- The engine's writes into the pooled response object on a successful
exchange: status code and headers into the object, body bytes into the
object's buffer. -/
def engineWrite (s : TState) (i : Nat) (er : EngineResponse) : TState :=
  let o := s.respObjs.getD i ⟨0, [], 0⟩
  { s with
    respObjs := s.respObjs.set i { o with statusCode := er.statusCode, headers := er.headers },
    heap := s.heap.set o.bodyBuf er.body }

/-- `slices.Clone`: allocate a fresh heap buffer holding a copy of the
given bytes. -/
def cloneBytes (s : TState) (data : List Nat) : TState × Nat :=
  ({ s with heap := s.heap ++ [data] }, s.heap.length)

/-- `contracts.Response` as returned by `Do`; its body is a byte slice,
i.e. a reference into the heap. -/
structure ResponseRef where
  statusCode : Int
  headers : List (String × String)
  bodyRef : Nat

/-- The execution context: `err` is what `ctx.Err()` returns — `some`
exactly once the context is cancelled or expired. -/
structure Ctx where
  err : Option GoErr

/-- The value the helper goroutine sends on `errCh`: the outcome of
`c.client.Do(fastReq, fastResp)`. -/
inductive ExchangeResult where
  | failure (e : GoErr)
  | success (er : EngineResponse)

/-- Which branch of the `select` unblocked the dispatch. -/
inductive Outcome where
  | completed (r : ExchangeResult)
  | cancelled

/-- Resource events of one dispatch call, in the order they happen. -/
inductive Ev where
  | acqReq (i : Nat)
  | acqResp (i : Nat)
  | relReq (i : Nat)
  | relResp (i : Nat)
  | helperDone
  | ret
deriving DecidableEq, Repr

/-- Go `select` semantics at the moment the dispatch blocks: a case whose
channel is already ready is taken; with both ready the choice is the
(nondeterministic) `tiebreak`; with neither ready the dispatch blocks and
takes whichever event fires first (`laterFirst`). -/
def selectFires (exchangeReady ctxDone : Bool) (r : ExchangeResult)
    (tiebreak : Bool) (laterFirst : Outcome) : Outcome :=
  match exchangeReady, ctxDone with
  | true, false => .completed r
  | false, true => .cancelled
  | true, true => if tiebreak then .completed r else .cancelled
  | false, false => laterFirst

/-- Result of one modelled dispatch: final state, the two return values,
and the event trace.  On the `cancelled` branch the helper goroutine is
still running when `Do` returns, so `helperDone` comes after the deferred
releases and the return — exactly the race flagged by the specification;
the model takes the state snapshot in which the helper's writes have not
landed. -/
structure DoOut where
  state : TState
  resp : Option ResponseRef
  err : Option GoErr
  trace : List Ev

/-- `(*Client).Do` of `fast_client.go`.  `o` is the branch through which
the `select` unblocked (carrying, for the completion branch, the value
received from `errCh`).  The deferred releases run in LIFO order:
`ReleaseResponse` first, then `ReleaseRequest`. -/
def DoM (s0 : TState) (ctx : Ctx) (req : Request) (o : Outcome) : DoOut :=
  let a1 := acquireReq s0
  let s1 := a1.1
  let reqId := a1.2
  let a2 := acquireResp s1
  let s2 := a2.1
  let respId := a2.2
  let s3 := populateRequest s2 reqId req
  match o with
  | .cancelled =>
    { state := releaseReq (releaseResp s3 respId) reqId
      resp := none
      err := ctx.err
      trace := [.acqReq reqId, .acqResp respId, .relResp respId, .relReq reqId, .ret,
        .helperDone] }
  | .completed (.failure e) =>
    { state := releaseReq (releaseResp s3 respId) reqId
      resp := none
      err := some e
      trace := [.acqReq reqId, .acqResp respId, .helperDone, .relResp respId, .relReq reqId,
        .ret] }
  | .completed (.success er) =>
    let s4 := engineWrite s3 respId er
    let respObj := s4.respObjs.getD respId ⟨0, [], 0⟩
    let bodyBytes := readBuf s4 respObj.bodyBuf
    let c := cloneBytes s4 bodyBytes
    let s5 := c.1
    let cloneId := c.2
    let s6 := releaseReq (releaseResp s5 respId) reqId
    { state := s6
      resp := some ⟨respObj.statusCode, respObj.headers, cloneId⟩
      err := none
      trace := [.acqReq reqId, .acqResp respId, .helperDone, .relResp respId, .relReq reqId,
        .ret] }

/-- Well-formedness of the pool state: free-list entries index existing
objects, and every pooled response's body buffer exists in the heap. -/
def stateWF (s : TState) : Bool :=
  s.reqFree.all (· < s.reqObjs.length) &&
  s.respFree.all (· < s.respObjs.length) &&
  s.respObjs.all (·.bodyBuf < s.heap.length)

end Outline

namespace Outline

/-- The type assertion of `withLastError`: whether an error value
implements `Unwrap() []error` (true exactly for `errors.Join` results). -/
def hasMultiCauseView : GoErr → Bool
  | .joined _ => true
  | _ => false

/-- The three contracts every taxonomy constructor must satisfy for its
bound kind `k` and its wrapper type `wt`: kind-matching against the
umbrella kind succeeds, kind-matching against `k` succeeds, and
type-extraction into the wrapper type succeeds. -/
def ctorClaims (e : GoErr) (k : Sentinel) (wt : WrapperType) : Prop :=
  goIs e ClientOutlineError = true ∧
  goIs e (.sentinel k) = true ∧
  (goAs wt e).isSome = true

end Outline

namespace Outline

/-! ## Theorems -/

/-- `withLastList` surfaces exactly the last element of the list. -/
theorem withLastList_getLast (msg : String) :
    ∀ (errs : List GoErr) (le : GoErr), errs.getLast? = some le →
      withLastList msg errs = msg ++ "; reason: " ++ goError le ++ "."
  | [e], le, h => by
    simp only [List.getLast?_singleton, Option.some.injEq] at h
    subst h
    simp [withLastList]
  | e :: e2 :: rest, le, h => by
    rw [List.getLast?_cons_cons] at h
    have ih := withLastList_getLast msg (e2 :: rest) le h
    simpa [withLastList] using ih

/-- C2: `withLastError(msg, err)` appends `"; reason: "` plus the
`Error()` string of the last element of the multi-cause view when `err`
exposes one with a non-empty cause list, and returns exactly `msg ++ "."`
when `err` is a plain non-joined error or `nil`; the inspection never
recurses into nested joins (the last element's own `Error()` string is
used as-is). -/
theorem c2_withLastError_last_cause :
    (∀ (msg : String) (errs : List GoErr) (le : GoErr), errs.getLast? = some le →
      withLastError msg (some (.joined errs)) = msg ++ "; reason: " ++ goError le ++ ".") ∧
    (∀ (msg : String) (err : GoErr), hasMultiCauseView err = false →
      withLastError msg (some err) = msg ++ ".") ∧
    (∀ msg : String, withLastError msg none = msg ++ ".") := by
  refine ⟨?_, ?_, ?_⟩
  · intro msg errs le h
    rw [withLastError]
    exact withLastList_getLast msg errs le h
  · intro msg err h
    cases err <;> simp_all [withLastError, hasMultiCauseView]
  · intro msg
    simp [withLastError]

/-- Witness for C2 at concrete inputs: a three-element join surfaces only
the last element, and a plain error yields no reason clause. -/
theorem c2_withLastError_last_cause_witness :
    (withLastError "msg" (some (.joined [.external 1 "e1", .external 2 "e2", .external 3 "e3"]))
      = "msg" ++ "; reason: " ++ goError (.external 3 "e3") ++ ".") ∧
    withLastError "msg" (some (.external 1 "plain")) = "msg" ++ "." :=
  ⟨c2_withLastError_last_cause.1 "msg"
      [.external 1 "e1", .external 2 "e2", .external 3 "e3"] (.external 3 "e3") rfl,
    c2_withLastError_last_cause.2.1 "msg" (.external 1 "plain") rfl⟩

/-- C7: `errUnexpectedStatusCode(404, []byte("not found"))` formats to the
module prefix `"outline client error: "` followed by
`"unexpected status code; status code: 404; data: not found; reason: unexpected status code."`. -/
theorem c7_errUnexpectedStatusCode_format :
    goError (errUnexpectedStatusCode 404 "not found") =
      "outline client error: " ++
        "unexpected status code; status code: 404; data: not found; reason: unexpected status code." := by
  simp [goError, errUnexpectedStatusCode, withLastError, withLastList, errorsJoin, sentinelStr]
  decide

end Outline

namespace Outline

set_option maxRecDepth 100000 in
/-- C8: wrapper errors with empty optional fields omit the corresponding
clause entirely: a `ClientError` with no data bytes has no `data:` clause,
an `UnmarshalError` with no data bytes has no `data:` clause and one with
an empty type name has no `(type: ...)` clause; and the empty-body decode
constructor applied to type name `"Server"` formats to a message that
contains `"(type: Server)"`, ends with `"reason: empty body."`, and
contains no `"data:"` clause. -/
theorem c8_empty_optional_fields_omitted :
    (∀ (statusCode : Int) (message : String) (e : Option GoErr),
      goError (.clientError statusCode "" message e) =
        withLastError (message ++ "; status code: " ++ toString statusCode) e) ∧
    (∀ (typeStr message : String) (e : Option GoErr),
      goError (.unmarshalError "" typeStr message e) =
        withLastError
          (if typeStr != "" then message ++ "; (type: " ++ typeStr ++ ")" else message) e) ∧
    (∀ (data message : String) (e : Option GoErr),
      goError (.unmarshalError data "" message e) =
        withLastError
          (if data.length > 0 then message ++ "; data: " ++ data else message) e) ∧
    goError (errUnmarshalEmptyBody "Server") =
      "outline client error: unmarshal failed; (type: Server); reason: empty body." ∧
    List.IsInfix "(type: Server)".toList (goError (errUnmarshalEmptyBody "Server")).toList ∧
    List.IsSuffix "reason: empty body.".toList (goError (errUnmarshalEmptyBody "Server")).toList ∧
    ¬ List.IsInfix "data:".toList (goError (errUnmarshalEmptyBody "Server")).toList := by
  have h : goError (errUnmarshalEmptyBody "Server") =
      "outline client error: unmarshal failed; (type: Server); reason: empty body." := by
    simp [goError, errUnmarshalEmptyBody, withLastError, withLastList, errorsJoin, sentinelStr]
  refine ⟨?_, ?_, ?_, h, ?_, ?_, ?_⟩
  · intro sc m e
    simp [goError]
  · intro t m e
    simp [goError]
  · intro d m e
    simp [goError]
  · rw [h]; decide
  · rw [h]; decide
  · rw [h]; decide

/-- The shape shared by the eighteen `DoError` constructors when the
upstream error is `nil`: `errors.Join` drops the `nil`, leaving exactly
the umbrella kind and `DoOperationError`, and the formatted message ends
in the `DoOperationError` reason. -/
theorem mkDoError_none_spec (op : String) :
    unwrapField (mkDoError op none) =
      some (.joined [.sentinel .clientOutline, .sentinel .doOperation]) ∧
    goError (mkDoError op none) =
      "outline client error: do operation error; operation: " ++ op ++
        "; reason: do operation error." := by
  constructor
  · simp [mkDoError, unwrapField, errorsJoin]
  · simp [mkDoError, goError, withLastError, withLastList, errorsJoin, sentinelStr,
      String.append_assoc]

end Outline

namespace Outline

/-- The C10 property at one `DoError` constructor: with a `nil` upstream
error the joined cause is exactly the umbrella kind and the `DoOperation`
kind, and the formatted message ends with `"; reason: do operation
error."`. -/
theorem mkDoError_none_claim (op : String) :
    unwrapField (mkDoError op none) =
      some (.joined [.sentinel .clientOutline, .sentinel .doOperation]) ∧
    List.IsSuffix "; reason: do operation error.".toList
      (goError (mkDoError op none)).toList := by
  refine ⟨(mkDoError_none_spec op).1, ?_⟩
  rw [(mkDoError_none_spec op).2]
  show List.IsSuffix "; reason: do operation error.".toList
    (("outline client error: do operation error; operation: " ++ op).toList ++
      "; reason: do operation error.".toList)
  exact List.suffix_append _ _

/-- C10: each of the eighteen `DoError` constructors invoked with a `nil`
upstream error drops the `nil` from the joined cause list, leaving exactly
the umbrella kind and the `DoOperation` kind, and its `Error()` string
ends with `"; reason: do operation error."` (the formatter never fails on
a `nil` upstream error). -/
theorem c10_doError_nil_upstream :
    (unwrapField (errDoGetServerInfo none) =
        some (.joined [.sentinel .clientOutline, .sentinel .doOperation]) ∧
      List.IsSuffix "; reason: do operation error.".toList
        (goError (errDoGetServerInfo none)).toList) ∧
    (unwrapField (errDoUpdateServerHostname none) =
        some (.joined [.sentinel .clientOutline, .sentinel .doOperation]) ∧
      List.IsSuffix "; reason: do operation error.".toList
        (goError (errDoUpdateServerHostname none)).toList) ∧
    (unwrapField (errDoUpdatePortNewAccessKeys none) =
        some (.joined [.sentinel .clientOutline, .sentinel .doOperation]) ∧
      List.IsSuffix "; reason: do operation error.".toList
        (goError (errDoUpdatePortNewAccessKeys none)).toList) ∧
    (unwrapField (errDoUpdateServerName none) =
        some (.joined [.sentinel .clientOutline, .sentinel .doOperation]) ∧
      List.IsSuffix "; reason: do operation error.".toList
        (goError (errDoUpdateServerName none)).toList) ∧
    (unwrapField (errDoGetMetricsEnabled none) =
        some (.joined [.sentinel .clientOutline, .sentinel .doOperation]) ∧
      List.IsSuffix "; reason: do operation error.".toList
        (goError (errDoGetMetricsEnabled none)).toList) ∧
    (unwrapField (errDoUpdateMetricsEnabled none) =
        some (.joined [.sentinel .clientOutline, .sentinel .doOperation]) ∧
      List.IsSuffix "; reason: do operation error.".toList
        (goError (errDoUpdateMetricsEnabled none)).toList) ∧
    (unwrapField (errDoUpdateKeyLimitBytes none) =
        some (.joined [.sentinel .clientOutline, .sentinel .doOperation]) ∧
      List.IsSuffix "; reason: do operation error.".toList
        (goError (errDoUpdateKeyLimitBytes none)).toList) ∧
    (unwrapField (errDoDeleteKeyLimitBytes none) =
        some (.joined [.sentinel .clientOutline, .sentinel .doOperation]) ∧
      List.IsSuffix "; reason: do operation error.".toList
        (goError (errDoDeleteKeyLimitBytes none)).toList) ∧
    (unwrapField (errDoCreateAccessKey none) =
        some (.joined [.sentinel .clientOutline, .sentinel .doOperation]) ∧
      List.IsSuffix "; reason: do operation error.".toList
        (goError (errDoCreateAccessKey none)).toList) ∧
    (unwrapField (errDoGetAccessKeys none) =
        some (.joined [.sentinel .clientOutline, .sentinel .doOperation]) ∧
      List.IsSuffix "; reason: do operation error.".toList
        (goError (errDoGetAccessKeys none)).toList) ∧
    (unwrapField (errDoGetAccessKey none) =
        some (.joined [.sentinel .clientOutline, .sentinel .doOperation]) ∧
      List.IsSuffix "; reason: do operation error.".toList
        (goError (errDoGetAccessKey none)).toList) ∧
    (unwrapField (errDoUpdateAccessKey none) =
        some (.joined [.sentinel .clientOutline, .sentinel .doOperation]) ∧
      List.IsSuffix "; reason: do operation error.".toList
        (goError (errDoUpdateAccessKey none)).toList) ∧
    (unwrapField (errDoDeleteAccessKey none) =
        some (.joined [.sentinel .clientOutline, .sentinel .doOperation]) ∧
      List.IsSuffix "; reason: do operation error.".toList
        (goError (errDoDeleteAccessKey none)).toList) ∧
    (unwrapField (errDoUpdateNameAccessKey none) =
        some (.joined [.sentinel .clientOutline, .sentinel .doOperation]) ∧
      List.IsSuffix "; reason: do operation error.".toList
        (goError (errDoUpdateNameAccessKey none)).toList) ∧
    (unwrapField (errDoUpdateDataLimitAccessKey none) =
        some (.joined [.sentinel .clientOutline, .sentinel .doOperation]) ∧
      List.IsSuffix "; reason: do operation error.".toList
        (goError (errDoUpdateDataLimitAccessKey none)).toList) ∧
    (unwrapField (errDoDeleteDataLimitAccessKey none) =
        some (.joined [.sentinel .clientOutline, .sentinel .doOperation]) ∧
      List.IsSuffix "; reason: do operation error.".toList
        (goError (errDoDeleteDataLimitAccessKey none)).toList) ∧
    (unwrapField (errDoGetMetricsTransfer none) =
        some (.joined [.sentinel .clientOutline, .sentinel .doOperation]) ∧
      List.IsSuffix "; reason: do operation error.".toList
        (goError (errDoGetMetricsTransfer none)).toList) ∧
    (unwrapField (errDoGetExperimentalMetrics none) =
        some (.joined [.sentinel .clientOutline, .sentinel .doOperation]) ∧
      List.IsSuffix "; reason: do operation error.".toList
        (goError (errDoGetExperimentalMetrics none)).toList) :=
  ⟨mkDoError_none_claim "get server info",
    mkDoError_none_claim "update server hostname",
    mkDoError_none_claim "update port for new access keys",
    mkDoError_none_claim "update server name",
    mkDoError_none_claim "get metrics enabled",
    mkDoError_none_claim "update metrics enabled",
    mkDoError_none_claim "update key limit bytes",
    mkDoError_none_claim "delete key limit bytes",
    mkDoError_none_claim "create access key",
    mkDoError_none_claim "get access keys",
    mkDoError_none_claim "get access key",
    mkDoError_none_claim "update access key",
    mkDoError_none_claim "delete access key",
    mkDoError_none_claim "update name access key",
    mkDoError_none_claim "update data limit access key",
    mkDoError_none_claim "delete data limit access key",
    mkDoError_none_claim "get metrics transfer",
    mkDoError_none_claim "get experimental metrics"⟩

end Outline

namespace Outline

/-- `errors.Join` on two non-nil errors and one optional third: the join
keeps the two and appends the third when present. -/
theorem errorsJoin_two (a b : GoErr) (u : Option GoErr) :
    errorsJoin [some a, some b, u] = some (.joined (a :: b :: u.toList)) := by
  cases u <;> simp [errorsJoin]

/-- Kind-matching and type-extraction for the `ClientError` constructor
shape: umbrella kind, bound kind `k`, and extraction as `*ClientError`. -/
theorem clientCtor_kinds (sc : Int) (d m : String) (k : Sentinel) :
    goIs (.clientError sc d m
      (errorsJoin [some (.sentinel .clientOutline), some (.sentinel k)])) ClientOutlineError = true ∧
    goIs (.clientError sc d m
      (errorsJoin [some (.sentinel .clientOutline), some (.sentinel k)])) (.sentinel k) = true ∧
    (goAs .client (.clientError sc d m
      (errorsJoin [some (.sentinel .clientOutline), some (.sentinel k)]))).isSome = true := by
  refine ⟨?_, ?_, ?_⟩ <;>
    simp [goIs, goIsUnwrap, goIsList, goAs, errorsJoin, errEq, ClientOutlineError, isType]

/-- Kind-matching and type-extraction for the `ParseURLError` constructor
shape, with an arbitrary (possibly `nil`) upstream error in the join. -/
theorem parseCtor_kinds (b m : String) (u : Option GoErr) :
    goIs (.parseURLError b m
      (errorsJoin [some (.sentinel .clientOutline), some (.sentinel .invalidBaseURL), u]))
      ClientOutlineError = true ∧
    goIs (.parseURLError b m
      (errorsJoin [some (.sentinel .clientOutline), some (.sentinel .invalidBaseURL), u]))
      (.sentinel .invalidBaseURL) = true ∧
    (goAs .parseURL (.parseURLError b m
      (errorsJoin [some (.sentinel .clientOutline), some (.sentinel .invalidBaseURL), u]))).isSome
      = true := by
  rw [errorsJoin_two]
  refine ⟨?_, ?_, ?_⟩ <;>
    simp [goIs, goIsUnwrap, goIsList, goAs, errEq, ClientOutlineError, isType]

/-- Kind-matching and type-extraction for the `UnmarshalError` constructor
shape, with an arbitrary (possibly `nil`) upstream error in the join. -/
theorem unmarshalCtor_kinds (d t m : String) (u : Option GoErr) :
    goIs (.unmarshalError d t m
      (errorsJoin [some (.sentinel .clientOutline), some (.sentinel .unmarshalFailed), u]))
      ClientOutlineError = true ∧
    goIs (.unmarshalError d t m
      (errorsJoin [some (.sentinel .clientOutline), some (.sentinel .unmarshalFailed), u]))
      (.sentinel .unmarshalFailed) = true ∧
    (goAs .unmarshal (.unmarshalError d t m
      (errorsJoin [some (.sentinel .clientOutline), some (.sentinel .unmarshalFailed), u]))).isSome
      = true := by
  rw [errorsJoin_two]
  refine ⟨?_, ?_, ?_⟩ <;>
    simp [goIs, goIsUnwrap, goIsList, goAs, errEq, ClientOutlineError, isType]

/-- Kind-matching and type-extraction for the `DoError` constructor shape,
with an arbitrary (possibly `nil`) upstream error in the join. -/
theorem doCtor_kinds (op m : String) (u : Option GoErr) :
    goIs (.doError op m
      (errorsJoin [some (.sentinel .clientOutline), some (.sentinel .doOperation), u]))
      ClientOutlineError = true ∧
    goIs (.doError op m
      (errorsJoin [some (.sentinel .clientOutline), some (.sentinel .doOperation), u]))
      (.sentinel .doOperation) = true ∧
    (goAs .doErr (.doError op m
      (errorsJoin [some (.sentinel .clientOutline), some (.sentinel .doOperation), u]))).isSome
      = true := by
  rw [errorsJoin_two]
  refine ⟨?_, ?_, ?_⟩ <;>
    simp [goIs, goIsUnwrap, goIsList, goAs, errEq, ClientOutlineError, isType]

end Outline

namespace Outline

/-- C1: every error produced by any constructor of the taxonomy — the nine
`ClientError` constructors, `errParseBaseURL`, the two `UnmarshalError`
constructors, and the eighteen `DoError` constructors — kind-matches the
umbrella kind `ClientOutlineError`, kind-matches the specific sentinel
kind the constructor is bound to through the wrapper's unwrap link, and
extracts into the constructor's concrete wrapper type; for the empty-body
decode constructor the `UnmarshalEmptyBodyError` kind also matches. -/
theorem c1_every_constructor_kind_matches :
    (∀ (sc : Int) (h : String), ctorClaims (errInvalidHostname sc h) .invalidHostname .client) ∧
    (∀ (sc : Int) (h : String), ctorClaims (errInternalHostname sc h) .internalHostName .client) ∧
    (∀ (sc : Int) (p : Nat), ctorClaims (errInvalidPort sc p) .invalidPort .client) ∧
    (∀ (sc : Int) (p : Nat), ctorClaims (errPortAlreadyInUse sc p) .portAlreadyInUse .client) ∧
    (∀ (sc : Int) (n : String), ctorClaims (errInvalidServerName sc n) .invalidServerName .client) ∧
    (∀ (sc : Int) (b : String), ctorClaims (errInvalidRequest sc b) .invalidRequest .client) ∧
    (∀ (sc : Int) (b : Nat), ctorClaims (errInvalidDataLimit sc b) .invalidDataLimit .client) ∧
    (∀ (sc : Int) (i : String), ctorClaims (errAccessKeyNotFound sc i) .accessKeyNotFound .client) ∧
    (∀ (sc : Int) (d : String), ctorClaims (errUnexpectedStatusCode sc d) .unexpectedStatusCode .client) ∧
    (∀ (b : String) (u : Option GoErr), ctorClaims (errParseBaseURL b u) .invalidBaseURL .parseURL) ∧
    (∀ (d t : String) (u : Option GoErr), ctorClaims (errUnmarshal d t u) .unmarshalFailed .unmarshal) ∧
    (∀ t : String, ctorClaims (errUnmarshalEmptyBody t) .unmarshalFailed .unmarshal ∧
      goIs (errUnmarshalEmptyBody t) (.sentinel .unmarshalEmptyBody) = true) ∧
    (∀ u : Option GoErr, ctorClaims (errDoGetServerInfo u) .doOperation .doErr) ∧
    (∀ u : Option GoErr, ctorClaims (errDoUpdateServerHostname u) .doOperation .doErr) ∧
    (∀ u : Option GoErr, ctorClaims (errDoUpdatePortNewAccessKeys u) .doOperation .doErr) ∧
    (∀ u : Option GoErr, ctorClaims (errDoUpdateServerName u) .doOperation .doErr) ∧
    (∀ u : Option GoErr, ctorClaims (errDoGetMetricsEnabled u) .doOperation .doErr) ∧
    (∀ u : Option GoErr, ctorClaims (errDoUpdateMetricsEnabled u) .doOperation .doErr) ∧
    (∀ u : Option GoErr, ctorClaims (errDoUpdateKeyLimitBytes u) .doOperation .doErr) ∧
    (∀ u : Option GoErr, ctorClaims (errDoDeleteKeyLimitBytes u) .doOperation .doErr) ∧
    (∀ u : Option GoErr, ctorClaims (errDoCreateAccessKey u) .doOperation .doErr) ∧
    (∀ u : Option GoErr, ctorClaims (errDoGetAccessKeys u) .doOperation .doErr) ∧
    (∀ u : Option GoErr, ctorClaims (errDoGetAccessKey u) .doOperation .doErr) ∧
    (∀ u : Option GoErr, ctorClaims (errDoUpdateAccessKey u) .doOperation .doErr) ∧
    (∀ u : Option GoErr, ctorClaims (errDoDeleteAccessKey u) .doOperation .doErr) ∧
    (∀ u : Option GoErr, ctorClaims (errDoUpdateNameAccessKey u) .doOperation .doErr) ∧
    (∀ u : Option GoErr, ctorClaims (errDoUpdateDataLimitAccessKey u) .doOperation .doErr) ∧
    (∀ u : Option GoErr, ctorClaims (errDoDeleteDataLimitAccessKey u) .doOperation .doErr) ∧
    (∀ u : Option GoErr, ctorClaims (errDoGetMetricsTransfer u) .doOperation .doErr) ∧
    (∀ u : Option GoErr, ctorClaims (errDoGetExperimentalMetrics u) .doOperation .doErr) := by
  refine ⟨fun sc h => clientCtor_kinds sc _ _ _,
    fun sc h => clientCtor_kinds sc _ _ _,
    fun sc p => clientCtor_kinds sc _ _ _,
    fun sc p => clientCtor_kinds sc _ _ _,
    fun sc n => clientCtor_kinds sc _ _ _,
    fun sc b => clientCtor_kinds sc _ _ _,
    fun sc b => clientCtor_kinds sc _ _ _,
    fun sc i => clientCtor_kinds sc _ _ _,
    fun sc d => clientCtor_kinds sc _ _ _,
    fun b u => parseCtor_kinds b _ u,
    fun d t u => unmarshalCtor_kinds d t _ u,
    fun t => ⟨unmarshalCtor_kinds "" t _ _, ?_⟩,
    fun u => doCtor_kinds _ _ u,
    fun u => doCtor_kinds _ _ u,
    fun u => doCtor_kinds _ _ u,
    fun u => doCtor_kinds _ _ u,
    fun u => doCtor_kinds _ _ u,
    fun u => doCtor_kinds _ _ u,
    fun u => doCtor_kinds _ _ u,
    fun u => doCtor_kinds _ _ u,
    fun u => doCtor_kinds _ _ u,
    fun u => doCtor_kinds _ _ u,
    fun u => doCtor_kinds _ _ u,
    fun u => doCtor_kinds _ _ u,
    fun u => doCtor_kinds _ _ u,
    fun u => doCtor_kinds _ _ u,
    fun u => doCtor_kinds _ _ u,
    fun u => doCtor_kinds _ _ u,
    fun u => doCtor_kinds _ _ u,
    fun u => doCtor_kinds _ _ u⟩
  simp [errUnmarshalEmptyBody, goIs, goIsUnwrap, goIsList, errorsJoin, errEq]

end Outline

namespace Outline

/-- C3: when the context is already cancelled/expired before the exchange
starts (its cancellation channel is ready and the helper's channel is
not), the `select` takes the cancellation branch and `Do` returns the
context's own cancellation error verbatim with a `nil` response — never a
transport error, whatever the exchange would have produced. -/
theorem c3_precancelled_ctx_error_verbatim (s : TState) (ctx : Ctx) (req : Request)
    (r : ExchangeResult) (tb : Bool) (later : Outcome) (ce : GoErr)
    (hce : ctx.err = some ce) :
    (DoM s ctx req (selectFires false true r tb later)).err = some ce ∧
    (DoM s ctx req (selectFires false true r tb later)).resp = none := by
  simp [selectFires, DoM, hce]

/-- Witness for C3: a concrete pre-cancelled dispatch returns the
context's error and no response. -/
theorem c3_precancelled_ctx_error_verbatim_witness :
    (DoM ⟨[], [], [], [], []⟩ ⟨some (.external 0 "context canceled")⟩
        ⟨"GET", "http://example.com", [], none⟩
        (selectFires false true (.failure (.external 1 "boom")) false .cancelled)).err
      = some (.external 0 "context canceled") ∧
    (DoM ⟨[], [], [], [], []⟩ ⟨some (.external 0 "context canceled")⟩
        ⟨"GET", "http://example.com", [], none⟩
        (selectFires false true (.failure (.external 1 "boom")) false .cancelled)).resp
      = none :=
  c3_precancelled_ctx_error_verbatim ⟨[], [], [], [], []⟩
    ⟨some (.external 0 "context canceled")⟩ ⟨"GET", "http://example.com", [], none⟩
    (.failure (.external 1 "boom")) false .cancelled (.external 0 "context canceled") rfl

/-- C4: when the helper's exchange completes first and failed with `e`,
`Do` returns exactly `e`, unwrapped and unmodified (no taxonomy wrapper is
applied inside the transport engine), together with a `nil` response. -/
theorem c4_transport_error_unwrapped (s : TState) (ctx : Ctx) (req : Request) (e : GoErr) :
    (DoM s ctx req (.completed (.failure e))).err = some e ∧
    (DoM s ctx req (.completed (.failure e))).resp = none := by
  simp [DoM]

/-- C9: every dispatch returns exactly one non-nil result — a response
exactly when the error is `nil`; on engine success the error is `nil` and
the response carries the engine's status code and headers; on engine
failure or cancellation the response is `nil` and the error is the
engine's or the context's error. -/
theorem c9_response_xor_error (s : TState) (ctx : Ctx) (req : Request) (o : Outcome)
    (hWF : stateWF s = true) (hc : o = .cancelled → ctx.err.isSome = true) :
    ((DoM s ctx req o).resp.isSome = true ↔ (DoM s ctx req o).err = none) ∧
    (∀ er, o = .completed (.success er) →
      ∃ rr, (DoM s ctx req o).resp = some rr ∧ (DoM s ctx req o).err = none ∧
        rr.statusCode = er.statusCode ∧ rr.headers = er.headers) ∧
    (∀ e, o = .completed (.failure e) →
      (DoM s ctx req o).resp = none ∧ (DoM s ctx req o).err = some e) ∧
    (o = .cancelled → (DoM s ctx req o).resp = none ∧ (DoM s ctx req o).err = ctx.err) := by
  obtain ⟨heap, ro, po, rf, pf⟩ := s
  simp [stateWF] at hWF
  match o with
  | .cancelled =>
    have hce := hc rfl
    refine ⟨?_, ?_, ?_, ?_⟩
    · simp [DoM]
      cases h : ctx.err with
      | none => rw [h] at hce; simp at hce
      | some ce => simp
    · intro er h; cases h
    · intro e h; cases h
    · intro h; simp [DoM]
  | .completed (.failure e) =>
    refine ⟨by simp [DoM], ?_, ?_, ?_⟩
    · intro er h; cases h
    · intro e2 h; cases h; simp [DoM]
    · intro h; cases h
  | .completed (.success er) =>
    refine ⟨?_, ?_, ?_, ?_⟩
    · simp [DoM]
    · intro er2 h
      cases h
      cases rf <;> cases pf <;>
        simp_all [DoM, acquireReq, acquireResp, populateRequest, engineWrite, readBuf, cloneBytes,
          releaseReq, releaseResp, List.getD, List.getElem?_set_self]
    · intro e h; cases h
    · intro h; cases h

/-- Witness for C9 at a concrete successful dispatch from the empty pool
state. -/
theorem c9_response_xor_error_witness :
    ((DoM ⟨[], [], [], [], []⟩ ⟨none⟩ ⟨"GET", "http://example.com", [], none⟩
        (.completed (.success ⟨200, [("Content-Type", "application/json")], [1, 2, 3]⟩))).resp.isSome
        = true ↔
      (DoM ⟨[], [], [], [], []⟩ ⟨none⟩ ⟨"GET", "http://example.com", [], none⟩
        (.completed (.success ⟨200, [("Content-Type", "application/json")], [1, 2, 3]⟩))).err
        = none) ∧
    (∀ er, Outcome.completed (.success ⟨200, [("Content-Type", "application/json")], [1, 2, 3]⟩)
        = .completed (.success er) →
      ∃ rr, (DoM ⟨[], [], [], [], []⟩ ⟨none⟩ ⟨"GET", "http://example.com", [], none⟩
          (.completed (.success ⟨200, [("Content-Type", "application/json")], [1, 2, 3]⟩))).resp
          = some rr ∧
        (DoM ⟨[], [], [], [], []⟩ ⟨none⟩ ⟨"GET", "http://example.com", [], none⟩
          (.completed (.success ⟨200, [("Content-Type", "application/json")], [1, 2, 3]⟩))).err
          = none ∧
        rr.statusCode = er.statusCode ∧ rr.headers = er.headers) ∧
    (∀ e, Outcome.completed (.success ⟨200, [("Content-Type", "application/json")], [1, 2, 3]⟩)
        = .completed (.failure e) →
      (DoM ⟨[], [], [], [], []⟩ ⟨none⟩ ⟨"GET", "http://example.com", [], none⟩
        (.completed (.success ⟨200, [("Content-Type", "application/json")], [1, 2, 3]⟩))).resp
        = none ∧
      (DoM ⟨[], [], [], [], []⟩ ⟨none⟩ ⟨"GET", "http://example.com", [], none⟩
        (.completed (.success ⟨200, [("Content-Type", "application/json")], [1, 2, 3]⟩))).err
        = some e) ∧
    (Outcome.completed (.success ⟨200, [("Content-Type", "application/json")], [1, 2, 3]⟩)
        = .cancelled →
      (DoM ⟨[], [], [], [], []⟩ ⟨none⟩ ⟨"GET", "http://example.com", [], none⟩
        (.completed (.success ⟨200, [("Content-Type", "application/json")], [1, 2, 3]⟩))).resp
        = none ∧
      (DoM ⟨[], [], [], [], []⟩ ⟨none⟩ ⟨"GET", "http://example.com", [], none⟩
        (.completed (.success ⟨200, [("Content-Type", "application/json")], [1, 2, 3]⟩))).err
        = Ctx.err ⟨none⟩) :=
  c9_response_xor_error ⟨[], [], [], [], []⟩ ⟨none⟩ ⟨"GET", "http://example.com", [], none⟩
    (.completed (.success ⟨200, [("Content-Type", "application/json")], [1, 2, 3]⟩))
    rfl (fun h => by cases h)

end Outline

namespace Outline

/-- The success path of `Do` clones the body into a fresh heap buffer:
the returned body reference holds the engine's body bytes, lives in the
heap, is not the body buffer of any pooled response object, and the
resulting pool state is well-formed. -/
theorem DoM_success_clone (s : TState) (ctx : Ctx) (req : Request) (er : EngineResponse)
    (hWF : stateWF s = true) :
    ∃ r1, (DoM s ctx req (.completed (.success er))).resp = some r1 ∧
      readBuf (DoM s ctx req (.completed (.success er))).state r1.bodyRef = er.body ∧
      r1.bodyRef < (DoM s ctx req (.completed (.success er))).state.heap.length ∧
      (∀ ob ∈ (DoM s ctx req (.completed (.success er))).state.respObjs,
        ob.bodyBuf ≠ r1.bodyRef) ∧
      stateWF (DoM s ctx req (.completed (.success er))).state = true := by
  obtain ⟨heap, ro, po, rf, pf⟩ := s
  simp [stateWF] at hWF
  rcases rf with _ | ⟨ri, rrest⟩ <;> rcases pf with _ | ⟨pi, prest⟩ <;>
    simp_all [DoM, acquireReq, acquireResp, populateRequest, engineWrite, readBuf, cloneBytes,
      releaseReq, releaseResp, stateWF, List.getD, List.getElem?_set_self, List.getElem?_append]
  · refine ⟨?_, ?_⟩
    · rintro ob (hm | rfl)
      · have := hWF ob hm
        omega
      · simp
    · intro x hx
      have := hWF x hx
      omega
  · refine ⟨?_, ?_⟩ <;>
    · intro ob hob
      rcases List.mem_or_eq_of_mem_set hob with hm | rfl
      · have := hWF.2 ob hm
        omega
      · dsimp only
        have := hWF.2 _ (List.getElem_mem hWF.1.1)
        omega
  · refine ⟨?_, ?_⟩
    · rintro ob (hm | rfl)
      · have := hWF.2 ob hm
        omega
      · simp
    · intro x hx
      have := hWF.2 x hx
      omega
  · refine ⟨?_, ?_⟩ <;>
    · intro ob hob
      rcases List.mem_or_eq_of_mem_set hob with hm | rfl
      · have := hWF.2 ob hm
        omega
      · dsimp only
        have := hWF.2 _ (List.getElem_mem hWF.1.2.1)
        omega

/-- Frame property of one dispatch over the byte heap: a heap buffer that
exists, and is not the body buffer of any pooled response object, is left
untouched by a dispatch call, whatever its outcome — the call writes only
into the pooled buffers it acquired and into fresh allocations. -/
theorem DoM_frame_readBuf (s : TState) (ctx : Ctx) (req : Request) (o : Outcome) (i : Nat)
    (hWF : stateWF s = true) (hid : i < s.heap.length)
    (hnb : ∀ ob ∈ s.respObjs, ob.bodyBuf ≠ i) :
    readBuf (DoM s ctx req o).state i = readBuf s i := by
  obtain ⟨heap, ro, po, rf, pf⟩ := s
  simp [stateWF] at hWF
  dsimp only at hid hnb
  match o with
  | .cancelled =>
    rcases rf with _ | ⟨ri, rrest⟩ <;> rcases pf with _ | ⟨pi, prest⟩ <;>
      simp_all [DoM, acquireReq, acquireResp, populateRequest, releaseReq, releaseResp,
        readBuf, List.getD, List.getElem?_append]
  | .completed (.failure e) =>
    rcases rf with _ | ⟨ri, rrest⟩ <;> rcases pf with _ | ⟨pi, prest⟩ <;>
      simp_all [DoM, acquireReq, acquireResp, populateRequest, releaseReq, releaseResp,
        readBuf, List.getD, List.getElem?_append]
  | .completed (.success er) =>
    have hlen : heap.length ≠ i := by omega
    rcases rf with _ | ⟨ri, rrest⟩ <;> rcases pf with _ | ⟨pi, prest⟩ <;>
      [skip;
       (have hne := hnb _ (List.getElem_mem (hWF.1.2 pi (List.mem_cons_self pi prest))));
       skip;
       (have hne := hnb _ (List.getElem_mem (hWF.1.2 pi (List.mem_cons_self pi prest))))] <;>
      simp_all [DoM, acquireReq, acquireResp, populateRequest, engineWrite, cloneBytes,
        releaseReq, releaseResp, readBuf, List.getD, List.getElem?_append,
        List.getElem?_set_ne]

/-- C5: a successful dispatch returns a response whose body is a fresh
byte-for-byte copy of the engine's response body, aliasing no pooled
memory: it still reads back unchanged after the call has released its
pooled buffers, and after a second, unrelated dispatch call (of any
outcome) has been issued and completed from the resulting state. -/
theorem c5_body_survives_pool_reuse (s0 : TState) (ctx1 ctx2 : Ctx) (req1 req2 : Request)
    (er1 : EngineResponse) (o2 : Outcome) (hWF : stateWF s0 = true) :
    ∃ r1, (DoM s0 ctx1 req1 (.completed (.success er1))).resp = some r1 ∧
      readBuf (DoM s0 ctx1 req1 (.completed (.success er1))).state r1.bodyRef = er1.body ∧
      readBuf (DoM (DoM s0 ctx1 req1 (.completed (.success er1))).state ctx2 req2 o2).state
        r1.bodyRef = er1.body := by
  obtain ⟨r1, hresp, hread, hlt, hnb, hWF1⟩ := DoM_success_clone s0 ctx1 req1 er1 hWF
  refine ⟨r1, hresp, hread, ?_⟩
  rw [DoM_frame_readBuf _ ctx2 req2 o2 _ hWF1 hlt hnb]
  exact hread

/-- Witness for C5: from the empty pool state, a successful dispatch
followed by a second successful dispatch leaves the first response's body
bytes intact. -/
theorem c5_body_survives_pool_reuse_witness :
    ∃ r1, (DoM ⟨[], [], [], [], []⟩ ⟨none⟩ ⟨"GET", "http://a", [], none⟩
        (.completed (.success ⟨200, [], [7, 8, 9]⟩))).resp = some r1 ∧
      readBuf (DoM ⟨[], [], [], [], []⟩ ⟨none⟩ ⟨"GET", "http://a", [], none⟩
        (.completed (.success ⟨200, [], [7, 8, 9]⟩))).state r1.bodyRef = [7, 8, 9] ∧
      readBuf (DoM (DoM ⟨[], [], [], [], []⟩ ⟨none⟩ ⟨"GET", "http://a", [], none⟩
          (.completed (.success ⟨200, [], [7, 8, 9]⟩))).state ⟨none⟩
          ⟨"POST", "http://b", [], some [1]⟩ (.completed (.success ⟨201, [], [4, 5]⟩))).state
        r1.bodyRef = [7, 8, 9] :=
  c5_body_survives_pool_reuse ⟨[], [], [], [], []⟩ ⟨none⟩ ⟨none⟩
    ⟨"GET", "http://a", [], none⟩ ⟨"POST", "http://b", [], some [1]⟩
    ⟨200, [], [7, 8, 9]⟩ (.completed (.success ⟨201, [], [4, 5]⟩)) rfl

end Outline

namespace Outline

/-- C6 (code-bug evidence): on the cancellation branch the deferred
releases of both pooled buffers run strictly before the helper task
finishes — the dispatch returns early while the helper is still using the
buffers, so the release races with it, contradicting the requirement that
release wait for the helper's own completion on every branch.  On the
completion branch the helper does finish before the releases; the
violation is exactly the cancellation path. -/
theorem c6_cancellation_path_releases_while_helper_runs :
    (DoM ⟨[], [], [], [], []⟩ ⟨some (.external 0 "context canceled")⟩
        ⟨"GET", "http://example.com", [], none⟩ .cancelled).trace =
      [.acqReq 0, .acqResp 0, .relResp 0, .relReq 0, .ret, .helperDone] ∧
    ((DoM ⟨[], [], [], [], []⟩ ⟨some (.external 0 "context canceled")⟩
        ⟨"GET", "http://example.com", [], none⟩ .cancelled).trace.indexOf (Ev.relResp 0) <
      (DoM ⟨[], [], [], [], []⟩ ⟨some (.external 0 "context canceled")⟩
        ⟨"GET", "http://example.com", [], none⟩ .cancelled).trace.indexOf Ev.helperDone) ∧
    ((DoM ⟨[], [], [], [], []⟩ ⟨some (.external 0 "context canceled")⟩
        ⟨"GET", "http://example.com", [], none⟩ .cancelled).trace.indexOf (Ev.relReq 0) <
      (DoM ⟨[], [], [], [], []⟩ ⟨some (.external 0 "context canceled")⟩
        ⟨"GET", "http://example.com", [], none⟩ .cancelled).trace.indexOf Ev.helperDone) ∧
    ((DoM ⟨[], [], [], [], []⟩ ⟨none⟩ ⟨"GET", "http://example.com", [], none⟩
        (.completed (.failure (.external 1 "dial error")))).trace.indexOf Ev.helperDone <
      (DoM ⟨[], [], [], [], []⟩ ⟨none⟩ ⟨"GET", "http://example.com", [], none⟩
        (.completed (.failure (.external 1 "dial error")))).trace.indexOf (Ev.relResp 0)) := by
  refine ⟨rfl, ?_, ?_, ?_⟩ <;> decide

end Outline
